import Mathlib

/- Verification of the full-text search subsystem of the bookmarks backend.

The development shallowly embeds the Rust sources:
  * services/tantivy_index.rs   (embedded tantivy engine),
  * services/indexer_service.rs (transactional FTS5 shadow indexer),
  * services/maintenance_service.rs (startup rebuild),
  * services/bookmark_service.rs (index sync after the primary commit),
  * utils/segmenter.rs (segmentation preprocessing).

Library internals of tantivy (tokenization, fuzzy edit distance, query
parsing, snippet extraction, relevance scores) are not code of this
repository; they enter the model as explicit function parameters, so the
theorems hold for every behaviour of those internals.  Machine integers
(i64) are modelled as Int; the reachable values never overflow in the
scenarios considered and the source performs no wrapping arithmetic on
them. -/

/-- Mirror of the fields of crate::models::Bookmark that tantivy_index.rs
reads when building an index document (the remaining columns are never
touched by the search subsystem). -/
structure Bookmark where
  id : Int
  user_id : Int
  title : String
  url : String
  description : Option String
  created_at : Int
deriving DecidableEq, Repr

/-- Mirror of crate::models::BookmarkWithTags restricted to the parts the
index manager reads. -/
structure BookmarkWithTags where
  bookmark : Bookmark
  tags : List String
deriving DecidableEq, Repr

/-- One document of the tantivy index, exactly the fields written by
TantivyIndexManager.add_bookmark: id, title, url, user_id, created_at
always, description only when Some, tags only when the tag list is
non-empty (joined by single spaces). -/
structure IndexedDoc where
  id : Int
  title : String
  url : String
  user_id : Int
  created_at : Int
  description : Option String
  tags : Option String
deriving DecidableEq, Repr

/-- Occur flags of a tantivy boolean clause as used by the code
(MustNot is never constructed by this repository). -/
inductive Occur where
  | must
  | should
deriving DecidableEq, Repr

/-- Leaf queries constructed by tantivy_index.rs: exact i64 term queries,
fuzzy text term queries, and AllQuery. -/
inductive LeafQuery where
  | termI64 (field : String) (value : Int)
  | fuzzyTerm (field : String) (text : String) (max_distance : Nat) (transposition : Bool)
  | allQuery
deriving DecidableEq, Repr

/-- A sub-query: either a leaf or a boolean combination of leaves.  This is
the shape build_text_query produces and the shape we use for parsed
user queries. -/
inductive SubQuery where
  | leaf (q : LeafQuery)
  | boolean (clauses : List (Occur × LeafQuery))
deriving DecidableEq, Repr

/-- Top-level queries: a leaf or a boolean combination of sub-queries.
build_query and the combined highlight query have exactly this depth. -/
inductive TQuery where
  | leaf (q : LeafQuery)
  | boolean (clauses : List (Occur × SubQuery))
deriving DecidableEq, Repr

/-- Text (string-valued) index fields of the schema, as stored in a
document.  The description and tags fields are optional because
add_bookmark omits them when absent. -/
def fieldText (d : IndexedDoc) : String → Option String
  | "title" => some d.title
  | "url" => some d.url
  | "description" => d.description
  | "tags" => d.tags
  | _ => none

/-- The i64 index fields of the schema. -/
def fieldI64 (d : IndexedDoc) : String → Option Int
  | "id" => some d.id
  | "user_id" => some d.user_id
  | "created_at" => some d.created_at
  | _ => none

/-- Tantivy semantics of a boolean query over already-evaluated clauses: a
document matches when every MUST clause matches, and, when no MUST
clause is present, when at least one SHOULD clause matches. -/
def evalClausesCore (vals : List (Occur × Bool)) : Bool :=
  if vals.any (fun c => c.1 == Occur.must) then
    vals.all (fun c => !(c.1 == Occur.must) || c.2)
  else
    vals.any (fun c => c.2)

/-- Evaluation of a leaf query against one document.  The fuzzy matcher
fm is a parameter standing for the tantivy internal (whether the field
text contains a token within the configured edit distance of the query
term); i64 term queries match by exact field equality and AllQuery
matches everything. -/
def evalLeaf (fm : String → String → Bool) (d : IndexedDoc) : LeafQuery → Bool
  | LeafQuery.termI64 f v => fieldI64 d f == some v
  | LeafQuery.fuzzyTerm f t _ _ => ((fieldText d f).map (fun s => fm s t)).getD false
  | LeafQuery.allQuery => true

/-- Evaluation of a sub-query. -/
def evalSub (fm : String → String → Bool) (d : IndexedDoc) : SubQuery → Bool
  | SubQuery.leaf q => evalLeaf fm d q
  | SubQuery.boolean cls =>
      evalClausesCore (cls.map (fun c => (c.1, evalLeaf fm d c.2)))

/-- Evaluation of a top-level query. -/
def evalQuery (fm : String → String → Bool) (d : IndexedDoc) : TQuery → Bool
  | TQuery.leaf q => evalLeaf fm d q
  | TQuery.boolean cls =>
      evalClausesCore (cls.map (fun c => (c.1, evalSub fm d c.2)))

namespace TantivyIndexManager

/-- The document representation built by add_bookmark from a bookmark and
its tags (tantivy_index.rs lines 146-161). -/
def mkDoc (b : BookmarkWithTags) : IndexedDoc :=
  { id := b.bookmark.id
    title := b.bookmark.title
    url := b.bookmark.url
    user_id := b.bookmark.user_id
    created_at := b.bookmark.created_at
    description := b.bookmark.description
    tags := if b.tags.isEmpty then none else some (String.intercalate " " b.tags) }

/-- State of the embedded engine.  writerDocs is the logical document list
held by the IndexWriter after pending mutations, committedDocs the
durable state after the last commit, visibleDocs the snapshot served by
the IndexReader since the last reload. -/
structure EngineState where
  writerDocs : List IndexedDoc
  committedDocs : List IndexedDoc
  visibleDocs : List IndexedDoc
deriving DecidableEq, Repr

/-- add_bookmark: writer.add_document appends the freshly built document. -/
def add_bookmark (s : EngineState) (b : BookmarkWithTags) : EngineState :=
  { s with writerDocs := s.writerDocs ++ [mkDoc b] }

/-- delete_bookmark_internal: writer.delete_query with an exact i64 term on
the id field removes every document whose id equals bookmark_id. -/
def delete_bookmark_internal (s : EngineState) (bookmark_id : Int) : EngineState :=
  { s with writerDocs := s.writerDocs.filter (fun d => d.id != bookmark_id) }

/-- delete_bookmark simply delegates to delete_bookmark_internal. -/
def delete_bookmark (s : EngineState) (bookmark_id : Int) : EngineState :=
  delete_bookmark_internal s bookmark_id

/-- delete_by_user: delete_query with an exact i64 term on user_id. -/
def delete_by_user (s : EngineState) (user_id : Int) : EngineState :=
  { s with writerDocs := s.writerDocs.filter (fun d => d.user_id != user_id) }

/-- update_bookmark is delete-by-id followed by add (tantivy_index.rs
lines 168-172). -/
def update_bookmark (s : EngineState) (b : BookmarkWithTags) : EngineState :=
  add_bookmark (delete_bookmark_internal s b.bookmark.id) b

/-- commit makes the pending writer state durable. -/
def commit (s : EngineState) : EngineState :=
  { s with committedDocs := s.writerDocs }

/-- reload refreshes the reader snapshot to the last committed state. -/
def reload (s : EngineState) : EngineState :=
  { s with visibleDocs := s.committedDocs }

/-- clear_all deletes every document (AllQuery) and commits. -/
def clear_all (s : EngineState) : EngineState :=
  commit { s with writerDocs := [] }

/-- get_stats counts all documents of the reader snapshot. -/
def get_stats (s : EngineState) : Nat :=
  s.visibleDocs.length

/-- Mirror of TantivySearchResult; the abstract tantivy relevance score is
modelled as Int through the score parameter of search. -/
structure TantivySearchResult where
  bookmark_id : Int
  score : Int
deriving DecidableEq, Repr

/-- Mirror of TantivySearchResponse. -/
structure TantivySearchResponse where
  results : List TantivySearchResult
  total : Nat
deriving DecidableEq, Repr

/-- build_text_query (tantivy_index.rs lines 281-307): one fuzzy term per
candidate field with max edit distance 1 and transposition true,
combined with SHOULD semantics. -/
def build_text_query (query_str : String) : SubQuery :=
  SubQuery.boolean
    [(Occur.should, LeafQuery.fuzzyTerm "title" query_str 1 true),
     (Occur.should, LeafQuery.fuzzyTerm "url" query_str 1 true),
     (Occur.should, LeafQuery.fuzzyTerm "description" query_str 1 true),
     (Occur.should, LeafQuery.fuzzyTerm "tags" query_str 1 true)]

/-- build_query (tantivy_index.rs lines 258-278): the exact user_id term,
followed, when the query text is non-empty, by the text sub-query; the
collected sub-queries are all attached with Occur.must. -/
def build_query (query_str : String) (user_id : Int) : TQuery :=
  let sub_queries : List SubQuery :=
    [SubQuery.leaf (LeafQuery.termI64 "user_id" user_id)] ++
      (if !query_str.isEmpty then [build_text_query query_str] else [])
  TQuery.boolean (sub_queries.map (fun q => (Occur.must, q)))

/-- Ranking performed by the TopDocs collector: documents ordered by
descending score; mergeSort is stable, so ties keep insertion order. -/
def rankDocs (score : IndexedDoc → Int) (docs : List IndexedDoc) : List IndexedDoc :=
  docs.mergeSort (fun a b => decide (score b ≤ score a))

/-- search (tantivy_index.rs lines 222-255): builds the query, takes the
top (limit + offset) ranked hits, separately counts all matches, then
skips offset and takes limit of the ranked page, reading back the
stored id of each hit. -/
def search (fm : String → String → Bool) (score : IndexedDoc → Int)
    (s : EngineState) (query_str : String) (user_id : Int)
    (limit offset : Nat) : TantivySearchResponse :=
  let query := build_query query_str user_id
  let matched := s.visibleDocs.filter (fun d => evalQuery fm d query)
  let top_docs := (rankDocs score matched).take (limit + offset)
  let total := matched.length
  let results := ((top_docs.drop offset).take limit).map
    (fun d => { bookmark_id := d.id, score := score d : TantivySearchResult })
  { results := results, total := total }

/-- The combined query used by generate_highlights to re-resolve the
document: MUST the exact id term, SHOULD the parsed user query
(tantivy_index.rs lines 378-381). -/
def combinedHighlightQuery (bookmark_id : Int) (parsed_query : SubQuery) : TQuery :=
  TQuery.boolean
    [(Occur.must, SubQuery.leaf (LeafQuery.termI64 "id" bookmark_id)),
     (Occur.should, parsed_query)]

/-- The document re-resolution of generate_highlights: the first hit of
the combined query against the reader snapshot, i.e. the TopDocs(1)
search of tantivy_index.rs line 383 followed by docs.first(). -/
def findHighlightDoc (fm : String → String → Bool) (score : IndexedDoc → Int)
    (s : EngineState) (combined_query : TQuery) : Option IndexedDoc :=
  (rankDocs score (s.visibleDocs.filter (fun d => evalQuery fm d combined_query))).head?

/-- generate_highlights (tantivy_index.rs lines 350-428).  The parameters
parse (QueryParser.parse_query for a given default-field list) and
snippetHtml (SnippetGenerator.create composed with snippet_from_doc and
to_html; Except.error models a create failure, Except.ok none an empty
snippet) stand for tantivy internals.  The control flow mirrors the
source: the whole-query parse and, inside the per-field loop, the
per-field parse and generator creation all propagate their errors. -/
def generate_highlights (fm : String → String → Bool) (score : IndexedDoc → Int)
    (parse : List String → String → Except String SubQuery)
    (snippetHtml : String → SubQuery → IndexedDoc → Except String (Option String))
    (s : EngineState) (bookmark_id : Int) (query_str : String) :
    Except String (List (String × List String)) := do
  let parsed_query ← parse ["title", "description", "tags"] query_str
  let combined_query := combinedHighlightQuery bookmark_id parsed_query
  match findHighlightDoc fm score s combined_query with
  | none => pure []
  | some doc =>
      List.foldlM
        (fun (highlights : List (String × List String)) (field_name : String) => do
          let field_query ← parse [field_name] query_str
          let snippet ← snippetHtml field_name field_query doc
          match snippet with
          | none => pure highlights
          | some html_highlight =>
              if !html_highlight.trim.isEmpty then
                pure (highlights ++ [(field_name, [html_highlight])])
              else
                pure highlights)
        [] ["title", "description"]

end TantivyIndexManager

/-- The variants of utils::error::AppError reachable from the indexing
code paths modelled here (the remaining variants of the Rust enum are
never produced by these paths). -/
inductive AppError where
  | Database (msg : String)
  | Unauthorized (msg : String)
  | Conflict (msg : String)
  | BadRequest (msg : String)
  | NotFound (msg : String)
  | Internal (msg : String)
deriving DecidableEq, Repr

/-- prepare_for_search (utils/segmenter.rs lines 40-58) in the default
build (jieba feature disabled): a non-empty input is trimmed and passed
through, everything else becomes the empty string.  The jieba variant
replaces the trim by a deterministic segmentation; nothing proved below
depends on which deterministic transform is used. -/
def prepare_for_search : Option String → String
  | some t => if !t.isEmpty then t.trim else ""
  | none => ""

/-- prepare_tags_for_search (utils/segmenter.rs lines 71-94) in the
default build: drop blank tags and join the rest with single spaces. -/
def prepare_tags_for_search (tags : List String) : String :=
  if tags.isEmpty then ""
  else String.intercalate " " (tags.filter (fun tag => !tag.trim.isEmpty))

/-- Mirror of the columns of crate::models::Resource that index_resource
reads (ids plus the text payload; the other columns never reach the
shadow index). -/
structure Resource where
  id : Int
  user_id : Int
  title : String
  url : Option String
  description : Option String
  content : Option String
deriving DecidableEq, Repr

/-- A row of the tags table. -/
structure Tag where
  id : Int
  user_id : Int
  name : String
deriving DecidableEq, Repr

/-- A row of the resource_tags join table. -/
structure ResourceTag where
  resource_id : Int
  tag_id : Int
deriving DecidableEq, Repr

/-- A row of the resources_fts shadow table (without its rowid). -/
structure FtsRow where
  title : String
  description : String
  content : String
  tags : String
  url : String
deriving DecidableEq, Repr

/-- The relational state visible to a transaction of the shadow-index
path: the primary resources table, the tag tables, and the FTS shadow
table keyed by rowid. -/
structure DbState where
  resources : List Resource
  tags : List Tag
  resource_tags : List ResourceTag
  resources_fts : List (Int × FtsRow)
deriving DecidableEq, Repr

namespace IndexerService

/-- Abbreviation for replacing the shadow table of a transaction state;
index_resource only ever writes this component. -/
def withFts (s : DbState) (fts : List (Int × FtsRow)) : DbState :=
  { s with resources_fts := fts }

/-- The fetch_optional of indexer_service.rs lines 41-54: the first
resources row with the given id and user_id. -/
def lookupResource (s : DbState) (resource_id user_id : Int) : Option Resource :=
  (s.resources.filter (fun r => r.id == resource_id && r.user_id == user_id)).head?

/-- The tag-name join of indexer_service.rs lines 61-77: names of tags
linked to the resource through resource_tags and owned by user_id. -/
def tagNamesFor (s : DbState) (resource_id user_id : Int) : List String :=
  (s.resource_tags.filter (fun rt => rt.resource_id == resource_id)).filterMap
    (fun rt => (s.tags.find? (fun t => t.id == rt.tag_id && t.user_id == user_id)).map Tag.name)

/-- The FTS payload computed at indexer_service.rs lines 80-84. -/
def ftsRowFor (r : Resource) (tag_names : List String) : FtsRow :=
  { title := prepare_for_search (some r.title)
    description := prepare_for_search r.description
    content := prepare_for_search r.content
    tags := prepare_tags_for_search tag_names
    url := r.url.getD "" }

/-- The EXISTS probe of indexer_service.rs lines 87-91. -/
def ftsExists (s : DbState) (resource_id : Int) : Bool :=
  s.resources_fts.any (fun p => p.1 == resource_id)

/-- The UPDATE of indexer_service.rs lines 95-109: rewrite the payload of
every shadow row whose rowid matches. -/
def ftsUpdate (fts : List (Int × FtsRow)) (resource_id : Int) (row : FtsRow) :
    List (Int × FtsRow) :=
  fts.map (fun p => if p.1 == resource_id then (p.1, row) else p)

/-- The INSERT of indexer_service.rs lines 112-125. -/
def ftsInsert (fts : List (Int × FtsRow)) (resource_id : Int) (row : FtsRow) :
    List (Int × FtsRow) :=
  fts ++ [(resource_id, row)]

/-- index_resource (indexer_service.rs lines 35-129): fetch the current
primary row (NotFound when absent), collect the tag names, compute the
segmented payload, then UPDATE the shadow row when one exists for this
rowid and INSERT a new one otherwise.  An error return leaves the state
untouched (the queries before the branch only read). -/
def index_resource (s : DbState) (resource_id user_id : Int) : Except AppError DbState :=
  match lookupResource s resource_id user_id with
  | none => Except.error (AppError.NotFound "Resource not found")
  | some resource =>
      let tag_names := tagNamesFor s resource_id user_id
      let row := ftsRowFor resource tag_names
      if ftsExists s resource_id then
        Except.ok { s with resources_fts := ftsUpdate s.resources_fts resource_id row }
      else
        Except.ok { s with resources_fts := ftsInsert s.resources_fts resource_id row }

/-- rebuild_index (indexer_service.rs lines 138-180), parameterized by the
per-record indexing operation ix, which stands for
IndexerService.index_resource together with the database-level failures
its statements may hit at runtime (instantiating ix with index_resource
gives the fault-free run).  The body mirrors the source: scoped or full
truncation of the shadow table, listing of the records to reindex, and
a loop that propagates the first per-record error, rolling the whole
transaction back. -/
def rebuild_index (ix : DbState → Int → Int → Except AppError DbState)
    (user_id : Option Int) (s : DbState) : Except AppError (DbState × Nat) :=
  let s1 := match user_id with
    | some uid =>
        let kept := s.resources_fts.filter
          (fun p => !(s.resources.any (fun r => r.id == p.1 && r.user_id == uid)))
        { s with resources_fts := kept }
    | none => { s with resources_fts := [] }
  let resource_ids : List (Int × Int) := match user_id with
    | some uid => (s1.resources.filter (fun r => r.user_id == uid)).map
        (fun r => (r.id, r.user_id))
    | none => s1.resources.map (fun r => (r.id, r.user_id))
  let count := resource_ids.length
  match resource_ids.foldlM (fun st p => ix st p.1 p.2) s1 with
  | Except.ok st => Except.ok (st, count)
  | Except.error e => Except.error e

end IndexerService

/-- One row of the SELECT that feeds the maintenance rebuild
(maintenance_service.rs lines 71-89): a bookmarks row together with the
COALESCEd comma-joined tag names computed by the sub-select. -/
structure BookmarkRow where
  id : Int
  title : String
  description : Option String
  url : String
  tagsConcat : String
deriving DecidableEq, Repr

/-- A row of the bookmarks_fts table written by the maintenance rebuild. -/
structure MaintFtsRow where
  title : String
  description : String
  tags : String
  url : String
deriving DecidableEq, Repr

/-- The database state the maintenance service operates on. -/
structure MaintState where
  bookmarks : List BookmarkRow
  bookmarks_fts : List (Int × MaintFtsRow)
deriving DecidableEq, Repr

/-- Space-joining of a jieba segmentation, the cut-and-join applied to
every text column in rebuild_fts_index; cut is a parameter standing for
the jieba tokenizer. -/
def segJoin (cut : String → List String) (t : String) : String :=
  String.intercalate " " (cut t)

/-- The bookmarks_fts payload computed at maintenance_service.rs
lines 104-120: segmented title, segmented optional description,
tag names split on commas then segmented and space-joined, raw url. -/
def maintRowFor (cut : String → List String) (b : BookmarkRow) : MaintFtsRow :=
  { title := segJoin cut b.title
    description := (b.description.map (segJoin cut)).getD ""
    tags := if b.tagsConcat.isEmpty then ""
            else String.intercalate " " ((b.tagsConcat.splitOn ",").map (segJoin cut))
    url := b.url }

/-- The per-bookmark loop of rebuild_fts_index (maintenance_service.rs
lines 97-141).  insertFault models a runtime failure of the INSERT for
a given rowid (the execute call can always fail); on the first failure
the loop aborts with that error, leaving the rows inserted so far (the
function runs on the pool, not inside a transaction). -/
def rebuildLoop (cut : String → List String) (insertFault : Int → Option String)
    (st : MaintState) : List BookmarkRow → Nat → MaintState × Except String Nat
  | [], count => (st, Except.ok count)
  | b :: rest, count =>
      match insertFault b.id with
      | some msg => (st, Except.error msg)
      | none =>
          rebuildLoop cut insertFault
            { st with bookmarks_fts := st.bookmarks_fts ++ [(b.id, maintRowFor cut b)] }
            rest (count + 1)

/-- rebuild_fts_index (maintenance_service.rs lines 58-145): truncate
bookmarks_fts, read every bookmarks row, then segment and insert them
one by one. -/
def rebuild_fts_index (cut : String → List String) (insertFault : Int → Option String)
    (s : MaintState) : MaintState × Except String Nat :=
  rebuildLoop cut insertFault { s with bookmarks_fts := [] } s.bookmarks 0

/-- check_and_rebuild_fts (maintenance_service.rs lines 14-53) as written:
the FTS-emptiness probe of the documented step 1 is commented out in
the source (lines 17-26), so the function counts the bookmarks rows,
no-ops when that count is zero, and otherwise always spawns the
background rebuild.  The returned Bool records whether a rebuild was
scheduled; the returned state is the state after the spawned task has
run (its error, if any, is only logged). -/
def check_and_rebuild_fts (cut : String → List String) (insertFault : Int → Option String)
    (s : MaintState) : MaintState × Bool :=
  let bookmarks_count := s.bookmarks.length
  if bookmarks_count == 0 then (s, false)
  else ((rebuild_fts_index cut insertFault s).1, true)

namespace BookmarkService

/-- The index-sync epilogue of create_bookmark (bookmark_service.rs
lines 80-98), entered after the primary transaction has committed and
when an index manager is configured.  fetchRes is the outcome of
get_bookmark_with_tags_for_index, addFault and commitFault the possible
failures of add_bookmark and commit (carrying the logged message).  The
control flow mirrors the source: the fetch result is unwrapped with the
question-mark operator, while add and commit failures are only logged. -/
def create_bookmark_after_commit (bm : Bookmark)
    (fetchRes : Except AppError BookmarkWithTags)
    (addFault commitFault : Option String) (e : TantivyIndexManager.EngineState) :
    Except AppError Bookmark × TantivyIndexManager.EngineState :=
  match fetchRes with
  | Except.error err => (Except.error err, e)
  | Except.ok bwt =>
      match addFault with
      | some _ => (Except.ok bm, e)
      | none =>
          let e1 := TantivyIndexManager.add_bookmark e bwt
          match commitFault with
          | some _ => (Except.ok bm, e1)
          | none => (Except.ok bm, TantivyIndexManager.commit e1)

/-- The index-sync epilogue of update_bookmark (bookmark_service.rs
lines 430-449): it runs only when the primary UPDATE found the row
(bookmark is Some); the fetch result is again unwrapped with the
question-mark operator while update and commit failures are logged. -/
def update_bookmark_after_commit (bookmark : Option Bookmark)
    (fetchRes : Except AppError BookmarkWithTags)
    (updateFault commitFault : Option String) (e : TantivyIndexManager.EngineState) :
    Except AppError (Option Bookmark) × TantivyIndexManager.EngineState :=
  match bookmark with
  | none => (Except.ok none, e)
  | some ub =>
      match fetchRes with
      | Except.error err => (Except.error err, e)
      | Except.ok bwt =>
          match updateFault with
          | some _ => (Except.ok (some ub), e)
          | none =>
              let e1 := TantivyIndexManager.update_bookmark e bwt
              match commitFault with
              | some _ => (Except.ok (some ub), e1)
              | none => (Except.ok (some ub), TantivyIndexManager.commit e1)

/-- The index-sync epilogue of delete_bookmark (bookmark_service.rs
lines 463-480): when the primary DELETE removed a row, the index delete
and commit are attempted and their failures only logged; the call
always returns Ok(was_deleted). -/
def delete_bookmark_after_delete (was_deleted : Bool) (bookmark_id : Int)
    (deleteFault commitFault : Option String) (e : TantivyIndexManager.EngineState) :
    Except AppError Bool × TantivyIndexManager.EngineState :=
  if was_deleted then
    match deleteFault with
    | some _ => (Except.ok true, e)
    | none =>
        let e1 := TantivyIndexManager.delete_bookmark e bookmark_id
        match commitFault with
        | some _ => (Except.ok true, e1)
        | none => (Except.ok true, TantivyIndexManager.commit e1)
  else (Except.ok false, e)

end BookmarkService

/- Helper lemmas shared by several claim proofs. -/

/-- Membership is preserved from the ranked list back to its source. -/
theorem rankDocs_mem (score : IndexedDoc → Int) (l : List IndexedDoc) (d : IndexedDoc)
    (h : d ∈ TantivyIndexManager.rankDocs score l) : d ∈ l :=
  ((List.mergeSort_perm l (fun a b => decide (score b ≤ score a))).mem_iff).1 h

/-- Ranking does not change the number of documents. -/
theorem rankDocs_length (score : IndexedDoc → Int) (l : List IndexedDoc) :
    (TantivyIndexManager.rankDocs score l).length = l.length :=
  (List.mergeSort_perm l (fun a b => decide (score b ≤ score a))).length_eq

/-- Ranking a one-document list returns it unchanged. -/
theorem rankDocs_singleton (score : IndexedDoc → Int) (d : IndexedDoc) :
    TantivyIndexManager.rankDocs score [d] = [d] :=
  List.perm_singleton.mp (List.mergeSort_perm [d] (fun a b => decide (score b ≤ score a)))

/-- Every document matching the query built by build_query carries the
requested user_id: the mandatory MUST term forces it. -/
theorem user_id_of_build_query (fm : String → String → Bool) (d : IndexedDoc)
    (query_str : String) (user_id : Int)
    (h : evalQuery fm d (TantivyIndexManager.build_query query_str user_id) = true) :
    d.user_id = user_id := by
  by_cases hq : query_str.isEmpty = true
  · simp [TantivyIndexManager.build_query, hq, evalQuery, evalClausesCore,
      evalSub, evalLeaf, fieldI64] at h
    exact h
  · simp [TantivyIndexManager.build_query, hq, evalQuery, evalClausesCore,
      evalSub, evalLeaf, fieldI64] at h
    exact h.1

/-- C1: tenant isolation of search.  For every index state, owner id,
query text (empty or not), limit and offset, and for every behaviour of
the tantivy-internal fuzzy matcher and scorer, each hit returned by
TantivyIndexManager.search is the recordId of a visible document whose
user_id equals the requesting owner: the query builder conjoins a MUST
exact term on user_id, so a document of another owner is never
returned. -/
theorem C1_tenant_isolation (fm : String → String → Bool) (score : IndexedDoc → Int)
    (s : TantivyIndexManager.EngineState) (query_str : String) (user_id : Int)
    (limit offset : Nat) (hit : TantivyIndexManager.TantivySearchResult)
    (h : hit ∈ (TantivyIndexManager.search fm score s query_str user_id limit offset).results) :
    ∃ d ∈ s.visibleDocs, d.user_id = user_id ∧ d.id = hit.bookmark_id := by
  simp only [TantivyIndexManager.search, List.mem_map] at h
  obtain ⟨d, hd, rfl⟩ := h
  have hd2 : d ∈ TantivyIndexManager.rankDocs score
      (s.visibleDocs.filter
        (fun x => evalQuery fm x (TantivyIndexManager.build_query query_str user_id))) :=
    List.mem_of_mem_take (List.mem_of_mem_drop (List.mem_of_mem_take hd))
  have hd3 := rankDocs_mem score _ d hd2
  obtain ⟨hdv, hq⟩ := List.mem_filter.mp hd3
  exact ⟨d, hdv, user_id_of_build_query fm d query_str user_id hq, rfl⟩

/-- C1 witness: a concrete search whose hit is owned by the caller. -/
theorem C1_tenant_isolation_witness :
    ∃ d ∈ (TantivyIndexManager.EngineState.mk [] []
        [⟨1, "t", "u", 1, 0, none, none⟩]).visibleDocs,
      d.user_id = 1 ∧ d.id = (1 : Int) := by
  have hempty : ("" : String).isEmpty = true := rfl
  have hs : TantivyIndexManager.search (fun _ _ => false) (fun _ => 0)
      ⟨[], [], [⟨1, "t", "u", 1, 0, none, none⟩]⟩ "" 1 10 0
      = { results := [⟨1, 0⟩], total := 1 } := by
    simp [TantivyIndexManager.search, TantivyIndexManager.build_query, hempty,
      evalQuery, evalClausesCore, evalSub, evalLeaf, fieldI64, rankDocs_singleton]
  exact C1_tenant_isolation (fun _ _ => false) (fun _ => 0)
    ⟨[], [], [⟨1, "t", "u", 1, 0, none, none⟩]⟩ "" 1 10 0 ⟨1, 0⟩ (by rw [hs]; simp)

/-- C4: update replaces rather than duplicates.  Updating with a document
(once, or twice with the same record id) and then committing and
reloading leaves exactly one visible document with that id, carrying
the fields of the latest update. -/
theorem C4_update_replaces (s : TantivyIndexManager.EngineState)
    (b1 b2 : BookmarkWithTags) (h : b1.bookmark.id = b2.bookmark.id) :
    ((TantivyIndexManager.reload (TantivyIndexManager.commit
          (TantivyIndexManager.update_bookmark s b2))).visibleDocs.filter
        (fun d => d.id == b2.bookmark.id)) = [TantivyIndexManager.mkDoc b2]
    ∧ ((TantivyIndexManager.reload (TantivyIndexManager.commit
          (TantivyIndexManager.update_bookmark
            (TantivyIndexManager.update_bookmark s b1) b2))).visibleDocs.filter
        (fun d => d.id == b2.bookmark.id)) = [TantivyIndexManager.mkDoc b2] := by
  constructor <;>
    simp [TantivyIndexManager.reload, TantivyIndexManager.commit,
      TantivyIndexManager.update_bookmark, TantivyIndexManager.add_bookmark,
      TantivyIndexManager.delete_bookmark_internal, TantivyIndexManager.mkDoc,
      List.filter_append, List.filter_filter, h]

/-- C4 witness: a concrete double update with one surviving document. -/
theorem C4_update_replaces_witness :
    ((TantivyIndexManager.reload (TantivyIndexManager.commit
          (TantivyIndexManager.update_bookmark
            (TantivyIndexManager.update_bookmark ⟨[], [], []⟩
              ⟨⟨1, 1, "old", "u", none, 0⟩, []⟩)
            ⟨⟨1, 1, "new", "u", none, 0⟩, []⟩))).visibleDocs.filter
        (fun d => d.id == (1 : Int)))
      = [TantivyIndexManager.mkDoc ⟨⟨1, 1, "new", "u", none, 0⟩, []⟩] :=
  (C4_update_replaces ⟨[], [], []⟩ ⟨⟨1, 1, "old", "u", none, 0⟩, []⟩
    ⟨⟨1, 1, "new", "u", none, 0⟩, []⟩ rfl).2

/-- C8: pagination over the ranked list with an unpaged total.  The hits
are exactly positions offset..offset+limit of the full score-ordered
match list (hence at most limit hits), and the reported total is the
number of all matching documents, independent of limit and offset. -/
theorem C8_search_pagination (fm : String → String → Bool) (score : IndexedDoc → Int)
    (s : TantivyIndexManager.EngineState) (query_str : String) (user_id : Int)
    (limit offset : Nat) :
    (TantivyIndexManager.search fm score s query_str user_id limit offset).results
      = (((TantivyIndexManager.rankDocs score
            (s.visibleDocs.filter
              (fun d => evalQuery fm d
                (TantivyIndexManager.build_query query_str user_id)))).drop offset).take
          limit).map
          (fun d => { bookmark_id := d.id, score := score d })
    ∧ (TantivyIndexManager.search fm score s query_str user_id limit offset).results.length
        ≤ limit
    ∧ (TantivyIndexManager.search fm score s query_str user_id limit offset).total
        = (s.visibleDocs.filter
            (fun d => evalQuery fm d (TantivyIndexManager.build_query query_str user_id))).length := by
  refine ⟨?_, ?_, rfl⟩
  · simp only [TantivyIndexManager.search]
    rw [List.drop_take]
    simp [List.take_take]
  · simp only [TantivyIndexManager.search, List.length_map, List.length_take]
    omega

/- Helper lemmas about the shadow-table UPDATE. -/

/-- UPDATE rewrites payloads in place, so the row count is unchanged. -/
theorem ftsUpdate_length (l : List (Int × FtsRow)) (rid : Int) (row : FtsRow) :
    (IndexerService.ftsUpdate l rid row).length = l.length := by
  simp [IndexerService.ftsUpdate]

/-- UPDATE leaves the set of rowids untouched. -/
theorem ftsUpdate_any (l : List (Int × FtsRow)) (rid q : Int) (row : FtsRow) :
    ((IndexerService.ftsUpdate l rid row).any (fun p => p.1 == q))
      = l.any (fun p => p.1 == q) := by
  induction l with
  | nil => rfl
  | cons p t ih =>
      simp only [IndexerService.ftsUpdate, List.map_cons, List.any_cons] at ih ⊢
      rw [ih]
      congr 1
      by_cases hp : p.1 == rid
      · simp [hp]
      · simp [hp]

/-- After an UPDATE, every row keyed by the updated rowid carries the new
payload. -/
theorem ftsUpdate_sets (l : List (Int × FtsRow)) (rid : Int) (row : FtsRow) :
    ∀ p ∈ IndexerService.ftsUpdate l rid row, p.1 = rid → p.2 = row := by
  induction l with
  | nil => intro p hp; cases hp
  | cons q t ih =>
      intro p hp hkey
      have hp2 : p = (if q.1 == rid then (q.1, row) else q)
          ∨ p ∈ IndexerService.ftsUpdate t rid row := by
        simpa [IndexerService.ftsUpdate] using hp
      rcases hp2 with hh | ht
      · by_cases hq : q.1 == rid
        · simp [hq] at hh
          rw [hh]
        · simp [hq] at hh
          rw [hh] at hkey
          exact absurd (beq_iff_eq.mpr hkey) (by simpa using hq)
      · exact ih p ht hkey

/-- Normal form of a successful index_resource run: the state with the
shadow table either updated in place or extended by the new row. -/
theorem index_resource_ok_shape (s : DbState) (rid uid : Int) (r : Resource)
    (hl : IndexerService.lookupResource s rid uid = some r) :
    IndexerService.index_resource s rid uid = Except.ok
      (IndexerService.withFts s
        (if IndexerService.ftsExists s rid then
          IndexerService.ftsUpdate s.resources_fts rid
            (IndexerService.ftsRowFor r (IndexerService.tagNamesFor s rid uid))
        else
          IndexerService.ftsInsert s.resources_fts rid
            (IndexerService.ftsRowFor r (IndexerService.tagNamesFor s rid uid)))) := by
  by_cases he : IndexerService.ftsExists s rid <;>
    simp [IndexerService.index_resource, IndexerService.withFts, hl, he]

/-- An UPDATE that writes the payload every matching row already carries
is the identity. -/
theorem ftsUpdate_self (l : List (Int × FtsRow)) (rid : Int) (row : FtsRow)
    (h : ∀ p ∈ l, p.1 = rid → p.2 = row) :
    IndexerService.ftsUpdate l rid row = l := by
  induction l with
  | nil => rfl
  | cons q t ih =>
      have hq := h q (List.mem_cons_self q t)
      have ht : ∀ p ∈ t, p.1 = rid → p.2 = row := fun p hp => h p (List.mem_cons_of_mem q hp)
      have hrest : IndexerService.ftsUpdate t rid row = t := ih ht
      simp only [IndexerService.ftsUpdate, List.map_cons] at hrest ⊢
      rw [hrest]
      by_cases hk : q.1 == rid
      · have hq2 : q.2 = row := hq (by simpa using hk)
        simp [hk, ← hq2]
      · simp [hk]

/-- C2: the shadow-index upsert is exclusive and idempotent.  A successful
index_resource run UPDATEs in place when a shadow row with the record
id already exists (row count unchanged) and INSERTs exactly one row
otherwise, never both; and running it again on the resulting state for
the same unchanged record is a no-op, returning the same state. -/
theorem C2_index_resource_idempotent (s s' : DbState) (rid uid : Int)
    (h : IndexerService.index_resource s rid uid = Except.ok s') :
    (IndexerService.ftsExists s rid = true →
        s'.resources_fts.length = s.resources_fts.length)
    ∧ (IndexerService.ftsExists s rid = false →
        s'.resources_fts.length = s.resources_fts.length + 1)
    ∧ IndexerService.index_resource s' rid uid = Except.ok s' := by
  cases hl : IndexerService.lookupResource s rid uid with
  | none => simp [IndexerService.index_resource, hl] at h
  | some r =>
      rw [index_resource_ok_shape s rid uid r hl] at h
      have hs := Except.ok.inj h
      by_cases he : IndexerService.ftsExists s rid
      · rw [if_pos he] at hs
        subst hs
        refine ⟨fun _ => ftsUpdate_length _ _ _, fun hc => absurd hc (by simp [he]), ?_⟩
        have hl2 : IndexerService.lookupResource
            (IndexerService.withFts s
              (IndexerService.ftsUpdate s.resources_fts rid
                (IndexerService.ftsRowFor r (IndexerService.tagNamesFor s rid uid))))
            rid uid = some r := hl
        rw [index_resource_ok_shape _ rid uid r hl2]
        have he2 : IndexerService.ftsExists
            (IndexerService.withFts s
              (IndexerService.ftsUpdate s.resources_fts rid
                (IndexerService.ftsRowFor r (IndexerService.tagNamesFor s rid uid))))
            rid = true := by
          show (IndexerService.ftsUpdate s.resources_fts rid _).any _ = true
          rw [ftsUpdate_any]
          exact he
        rw [if_pos he2]
        have hrow := ftsUpdate_self
          (IndexerService.ftsUpdate s.resources_fts rid
            (IndexerService.ftsRowFor r (IndexerService.tagNamesFor s rid uid)))
          rid (IndexerService.ftsRowFor r (IndexerService.tagNamesFor s rid uid))
          (ftsUpdate_sets _ _ _)
        exact congrArg (fun l => Except.ok (IndexerService.withFts s l)) hrow
      · rw [if_neg he] at hs
        subst hs
        refine ⟨fun hc => absurd he (by simp [hc]), fun _ => ?_, ?_⟩
        · show (IndexerService.ftsInsert s.resources_fts rid _).length = _
          simp [IndexerService.ftsInsert]
        · have hl2 : IndexerService.lookupResource
              (IndexerService.withFts s
                (IndexerService.ftsInsert s.resources_fts rid
                  (IndexerService.ftsRowFor r (IndexerService.tagNamesFor s rid uid))))
              rid uid = some r := hl
          rw [index_resource_ok_shape _ rid uid r hl2]
          have he2 : IndexerService.ftsExists
              (IndexerService.withFts s
                (IndexerService.ftsInsert s.resources_fts rid
                  (IndexerService.ftsRowFor r (IndexerService.tagNamesFor s rid uid))))
              rid = true := by
            show (IndexerService.ftsInsert s.resources_fts rid _).any _ = true
            simp [IndexerService.ftsInsert]
          rw [if_pos he2]
          have hnokey : ∀ p ∈ IndexerService.ftsInsert s.resources_fts rid
              (IndexerService.ftsRowFor r (IndexerService.tagNamesFor s rid uid)),
              p.1 = rid →
              p.2 = IndexerService.ftsRowFor r (IndexerService.tagNamesFor s rid uid) := by
            intro p hp hkey
            rcases List.mem_append.mp hp with hin | hnew
            · exfalso
              have : s.resources_fts.any (fun q => q.1 == rid) = true :=
                List.any_eq_true.mpr ⟨p, hin, beq_iff_eq.mpr hkey⟩
              exact absurd this (by simpa [IndexerService.ftsExists] using he)
            · simp at hnew
              rw [hnew]
          have hrow := ftsUpdate_self
            (IndexerService.ftsInsert s.resources_fts rid
              (IndexerService.ftsRowFor r (IndexerService.tagNamesFor s rid uid)))
            rid (IndexerService.ftsRowFor r (IndexerService.tagNamesFor s rid uid)) hnokey
          exact congrArg (fun l => Except.ok (IndexerService.withFts s l)) hrow

/-- C2 witness: a concrete first run INSERTs the single shadow row and a
second run is a no-op on the resulting state. -/
theorem C2_index_resource_idempotent_witness :
    (IndexerService.ftsExists ⟨[⟨1, 1, "", none, none, none⟩], [], [], []⟩ 1 = true →
        (DbState.mk [⟨1, 1, "", none, none, none⟩] [] []
            [(1, ⟨"", "", "", "", ""⟩)]).resources_fts.length
          = (DbState.mk [⟨1, 1, "", none, none, none⟩] [] [] []).resources_fts.length)
    ∧ (IndexerService.ftsExists ⟨[⟨1, 1, "", none, none, none⟩], [], [], []⟩ 1 = false →
        (DbState.mk [⟨1, 1, "", none, none, none⟩] [] []
            [(1, ⟨"", "", "", "", ""⟩)]).resources_fts.length
          = (DbState.mk [⟨1, 1, "", none, none, none⟩] [] [] []).resources_fts.length + 1)
    ∧ IndexerService.index_resource
        ⟨[⟨1, 1, "", none, none, none⟩], [], [], [(1, ⟨"", "", "", "", ""⟩)]⟩ 1 1
      = Except.ok ⟨[⟨1, 1, "", none, none, none⟩], [], [], [(1, ⟨"", "", "", "", ""⟩)]⟩ :=
  C2_index_resource_idempotent ⟨[⟨1, 1, "", none, none, none⟩], [], [], []⟩
    ⟨[⟨1, 1, "", none, none, none⟩], [], [], [(1, ⟨"", "", "", "", ""⟩)]⟩ 1 1 (by rfl)

/-- C10: implicit precondition of the shadow indexer.  When no primary
row exists with the given record id and owner pair (in particular when
the row belongs to a different owner), index_resource returns NotFound
and, since the error is produced before either write branch, the state
is left unchanged. -/
theorem C10_missing_resource_not_found (s : DbState) (rid uid : Int)
    (h : ∀ r ∈ s.resources, ¬(r.id = rid ∧ r.user_id = uid)) :
    IndexerService.index_resource s rid uid
      = Except.error (AppError.NotFound "Resource not found") := by
  have hf : s.resources.filter (fun r => r.id == rid && r.user_id == uid) = [] := by
    apply List.filter_eq_nil_iff.mpr
    intro r hr
    simpa using h r hr
  have hl : IndexerService.lookupResource s rid uid = none := by
    simp [IndexerService.lookupResource, hf]
  simp [IndexerService.index_resource, hl]

/-- C10 witness: indexing record 1 as owner 2 while record 1 belongs to
owner 1 fails with NotFound and no write. -/
theorem C10_missing_resource_not_found_witness :
    IndexerService.index_resource ⟨[⟨1, 1, "", none, none, none⟩], [], [], []⟩ 1 2
      = Except.error (AppError.NotFound "Resource not found") :=
  C10_missing_resource_not_found ⟨[⟨1, 1, "", none, none, none⟩], [], [], []⟩ 1 2
    (by decide)

/- Helper lemmas for the highlight and epilogue claims. -/

/-- Bind on a successful Except value applies the continuation. -/
theorem except_bind_ok {α β ε : Type} (a : α) (f : α → Except ε β) :
    (Except.ok a >>= f) = f a := rfl

/-- Bind on a failed Except value propagates the error. -/
theorem except_bind_error {α β ε : Type} (e : ε) (f : α → Except ε β) :
    ((Except.error e : Except ε α) >>= f) = Except.error e := rfl

/-- When the combined query matches exactly one visible document, the
highlight document resolution returns it. -/
theorem findHighlightDoc_of_filter_singleton (fm : String → String → Bool)
    (score : IndexedDoc → Int) (s : TantivyIndexManager.EngineState) (q : TQuery)
    (d : IndexedDoc)
    (h : s.visibleDocs.filter (fun x => evalQuery fm x q) = [d]) :
    TantivyIndexManager.findHighlightDoc fm score s q = some d := by
  unfold TantivyIndexManager.findHighlightDoc
  rw [h, rankDocs_singleton]
  rfl

/-- A visible document matching the combined query guarantees the
highlight document resolution finds some document. -/
theorem findHighlightDoc_isSome_of_mem (fm : String → String → Bool)
    (score : IndexedDoc → Int) (s : TantivyIndexManager.EngineState) (q : TQuery)
    (d : IndexedDoc) (hd : d ∈ s.visibleDocs) (hq : evalQuery fm d q = true) :
    ∃ doc, TantivyIndexManager.findHighlightDoc fm score s q = some doc := by
  have hmem : d ∈ s.visibleDocs.filter (fun x => evalQuery fm x q) :=
    List.mem_filter.mpr ⟨hd, hq⟩
  have hne : s.visibleDocs.filter (fun x => evalQuery fm x q) ≠ [] :=
    List.ne_nil_of_mem hmem
  have hrank : TantivyIndexManager.rankDocs score
      (s.visibleDocs.filter (fun x => evalQuery fm x q)) ≠ [] := by
    intro hnil
    apply hne
    have := rankDocs_length score (s.visibleDocs.filter (fun x => evalQuery fm x q))
    rw [hnil] at this
    exact List.length_eq_zero.mp this.symm
  obtain ⟨doc, hdoc⟩ := Option.isSome_iff_exists.mp (List.head?_isSome.mpr hrank)
  exact ⟨doc, hdoc⟩

/-- C3: evaluation of check_and_rebuild_fts on a startup state whose
primary store and FTS index are both non-empty.  The claim (and the
doc comment of the function itself) says this must be a no-op, but the
FTS-emptiness probe is commented out in the source, so the code
schedules the background rebuild and rewrites the populated index. -/
theorem C3_rebuild_scheduled_despite_populated_index :
    (check_and_rebuild_fts (fun t => [t]) (fun _ => none)
        ⟨[⟨1, "New", none, "u", ""⟩], [(1, ⟨"Old", "", "", "u"⟩)]⟩).2 = true
    ∧ (check_and_rebuild_fts (fun t => [t]) (fun _ => none)
        ⟨[⟨1, "New", none, "u", ""⟩], [(1, ⟨"Old", "", "", "u"⟩)]⟩).1.bookmarks_fts
      = [(1, ⟨"New", "", "", "u"⟩)]
    ∧ (check_and_rebuild_fts (fun t => [t]) (fun _ => none)
        ⟨[⟨1, "New", none, "u", ""⟩], [(1, ⟨"Old", "", "", "u"⟩)]⟩).1.bookmarks_fts
      ≠ [(1, ⟨"Old", "", "", "u"⟩)] := by
  refine ⟨rfl, rfl, by decide⟩

/-- C6: evaluation of the two bulk-rebuild paths on two records where the
per-record operation fails for the first.  The claim says the failure
is logged and skipped and the rebuild continues; the code propagates
the error: the background FTS rebuild aborts with the error, leaving
the truncated table empty (the second record is never reindexed), and
IndexerService.rebuild_index fails as a whole. -/
theorem C6_rebuild_aborts_on_bad_record :
    (rebuild_fts_index (fun t => [t]) (fun i => if i == 1 then some "boom" else none)
        ⟨[⟨1, "A", none, "u", ""⟩, ⟨2, "B", none, "v", ""⟩],
          [(2, ⟨"B", "", "", "v"⟩)]⟩).2
      = Except.error "boom"
    ∧ (rebuild_fts_index (fun t => [t]) (fun i => if i == 1 then some "boom" else none)
        ⟨[⟨1, "A", none, "u", ""⟩, ⟨2, "B", none, "v", ""⟩],
          [(2, ⟨"B", "", "", "v"⟩)]⟩).1.bookmarks_fts
      = []
    ∧ IndexerService.rebuild_index
        (fun st ri ui => if ri == 1 then Except.error (AppError.Database "boom")
          else IndexerService.index_resource st ri ui)
        none
        ⟨[⟨1, 1, "", some "u", none, none⟩, ⟨2, 1, "", some "v", none, none⟩], [], [], []⟩
      = Except.error (AppError.Database "boom") :=
  ⟨rfl, rfl, rfl⟩

/-- C5 counterexample: with the primary commit already successful, a
failure of the post-commit fetch of the committed record makes
create_bookmark return that error to the caller, not success. -/
theorem C5_fetch_failure_fails_request :
    (BookmarkService.create_bookmark_after_commit ⟨1, 1, "T", "u", none, 0⟩
        (Except.error (AppError.Database "boom")) none none ⟨[], [], []⟩).1
      = Except.error (AppError.Database "boom")
    ∧ (BookmarkService.create_bookmark_after_commit ⟨1, 1, "T", "u", none, 0⟩
        (Except.error (AppError.Database "boom")) none none ⟨[], [], []⟩).1
      ≠ Except.ok ⟨1, 1, "T", "u", none, 0⟩ := by
  refine ⟨rfl, ?_⟩
  intro hcc
  simp [BookmarkService.create_bookmark_after_commit] at hcc

/-- C5 amended: after a successful primary commit, failures of the index
add, update or delete call and of the index commit are logged and do
not change the user-facing success of create, update or delete; but a
failure of the post-commit fetch of the committed record (create and
update paths) propagates and fails the user-facing request. -/
theorem C5_index_sync_best_effort (bm : Bookmark) (bwt : BookmarkWithTags)
    (addFault commitFault updateFault deleteFault : Option String)
    (e : TantivyIndexManager.EngineState) (was_deleted : Bool) (bid : Int)
    (err : AppError) :
    (BookmarkService.create_bookmark_after_commit bm (Except.ok bwt) addFault commitFault e).1
      = Except.ok bm
    ∧ (BookmarkService.update_bookmark_after_commit (some bm) (Except.ok bwt) updateFault
        commitFault e).1 = Except.ok (some bm)
    ∧ (BookmarkService.delete_bookmark_after_delete was_deleted bid deleteFault commitFault e).1
      = Except.ok was_deleted
    ∧ (BookmarkService.create_bookmark_after_commit bm (Except.error err) addFault commitFault
        e).1 = Except.error err
    ∧ (BookmarkService.update_bookmark_after_commit (some bm) (Except.error err) updateFault
        commitFault e).1 = Except.error err := by
  cases addFault <;> cases commitFault <;> cases updateFault <;> cases deleteFault <;>
    cases was_deleted <;> exact ⟨rfl, rfl, rfl, rfl, rfl⟩

/-- C7 (amended): a query-parse failure for one highlightable field does
not stay local to that field.  The per-field parse result is unwrapped
with the question-mark operator inside the loop, so once the document
has been found, a parse failure for the title field aborts the whole
generate_highlights call with that error and no fragments are returned
for any field. -/
theorem C7_field_parse_failure_aborts (fm : String → String → Bool)
    (score : IndexedDoc → Int)
    (parse : List String → String → Except String SubQuery)
    (snippetHtml : String → SubQuery → IndexedDoc → Except String (Option String))
    (s : TantivyIndexManager.EngineState) (bookmark_id : Int) (query_str : String)
    (pq : SubQuery) (doc : IndexedDoc) (e : String)
    (hparse : parse ["title", "description", "tags"] query_str = Except.ok pq)
    (hdoc : TantivyIndexManager.findHighlightDoc fm score s
        (TantivyIndexManager.combinedHighlightQuery bookmark_id pq) = some doc)
    (ht : parse ["title"] query_str = Except.error e) :
    TantivyIndexManager.generate_highlights fm score parse snippetHtml s bookmark_id query_str
      = Except.error e := by
  simp [TantivyIndexManager.generate_highlights, hparse, except_bind_ok, hdoc,
    List.foldlM_cons, ht, except_bind_error]

/-- C7 counterexample: a concrete run where the whole-query parse and the
description-field parse succeed, yet the title-field parse failure
makes generate_highlights return an error for the whole call instead
of the fragments of the field whose parse succeeded. -/
theorem C7_counterexample :
    TantivyIndexManager.generate_highlights (fun _ _ => true) (fun _ => 0)
        (fun fields q => if fields == ["title"] then Except.error "bad title query"
          else Except.ok (SubQuery.leaf (LeafQuery.fuzzyTerm "description" q 1 true)))
        (fun _ _ _ => Except.ok (some "frag"))
        ⟨[], [], [⟨1, "T", "u", 1, 0, some "D", none⟩]⟩ 1 "q"
      = Except.error "bad title query"
    ∧ (fun (fields : List String) (q : String) =>
        if fields == ["title"] then Except.error "bad title query"
          else Except.ok (SubQuery.leaf (LeafQuery.fuzzyTerm "description" q 1 true)))
        ["description"] "q"
      = Except.ok (SubQuery.leaf (LeafQuery.fuzzyTerm "description" "q" 1 true)) := by
  refine ⟨?_, rfl⟩
  have h1 : (fun (fields : List String) (q : String) =>
      if fields == ["title"] then Except.error "bad title query"
        else Except.ok (SubQuery.leaf (LeafQuery.fuzzyTerm "description" q 1 true)))
      ["title", "description", "tags"] "q"
      = Except.ok (SubQuery.leaf (LeafQuery.fuzzyTerm "description" "q" 1 true)) := rfl
  have ht : (fun (fields : List String) (q : String) =>
      if fields == ["title"] then Except.error "bad title query"
        else Except.ok (SubQuery.leaf (LeafQuery.fuzzyTerm "description" q 1 true)))
      ["title"] "q" = Except.error "bad title query" := rfl
  have hdoc := findHighlightDoc_of_filter_singleton (fun _ _ => true) (fun _ => 0)
    ⟨[], [], [⟨1, "T", "u", 1, 0, some "D", none⟩]⟩
    (TantivyIndexManager.combinedHighlightQuery 1
      (SubQuery.leaf (LeafQuery.fuzzyTerm "description" "q" 1 true)))
    ⟨1, "T", "u", 1, 0, some "D", none⟩ rfl
  simp [TantivyIndexManager.generate_highlights, h1, except_bind_ok, hdoc,
    List.foldlM_cons, ht, except_bind_error]

/-- C7 witness: the amended theorem applied at the concrete input. -/
theorem C7_field_parse_failure_aborts_witness :
    TantivyIndexManager.generate_highlights (fun _ _ => true) (fun _ => 0)
        (fun fields q => if fields == ["title"] then Except.error "bad title query"
          else Except.ok (SubQuery.leaf (LeafQuery.fuzzyTerm "description" q 1 true)))
        (fun _ _ _ => Except.ok (some "frag"))
        ⟨[], [], [⟨1, "T", "u", 1, 0, some "D", none⟩]⟩ 1 "q"
      = Except.error "bad title query" :=
  C7_field_parse_failure_aborts (fun _ _ => true) (fun _ => 0)
    (fun fields q => if fields == ["title"] then Except.error "bad title query"
      else Except.ok (SubQuery.leaf (LeafQuery.fuzzyTerm "description" q 1 true)))
    (fun _ _ _ => Except.ok (some "frag"))
    ⟨[], [], [⟨1, "T", "u", 1, 0, some "D", none⟩]⟩ 1 "q"
    (SubQuery.leaf (LeafQuery.fuzzyTerm "description" "q" 1 true))
    ⟨1, "T", "u", 1, 0, some "D", none⟩ "bad title query"
    rfl
    (findHighlightDoc_of_filter_singleton (fun _ _ => true) (fun _ => 0)
      ⟨[], [], [⟨1, "T", "u", 1, 0, some "D", none⟩]⟩
      (TantivyIndexManager.combinedHighlightQuery 1
        (SubQuery.leaf (LeafQuery.fuzzyTerm "description" "q" 1 true)))
      ⟨1, "T", "u", 1, 0, some "D", none⟩ rfl)
    rfl

/-- C9: highlight graceful degradation.  For a document present in the
index and a parseable query that matches none of the highlightable
fields (both per-field snippets come back empty), generate_highlights
returns success with an empty map, not an error: the document is still
found through the MUST exact-id term, and empty snippets are skipped
rather than reported. -/
theorem C9_highlight_empty_map (fm : String → String → Bool) (score : IndexedDoc → Int)
    (parse : List String → String → Except String SubQuery)
    (snippetHtml : String → SubQuery → IndexedDoc → Except String (Option String))
    (s : TantivyIndexManager.EngineState) (bookmark_id : Int) (query_str : String)
    (pq fq1 fq2 : SubQuery) (d : IndexedDoc)
    (hparse : parse ["title", "description", "tags"] query_str = Except.ok pq)
    (hpt : parse ["title"] query_str = Except.ok fq1)
    (hpd : parse ["description"] query_str = Except.ok fq2)
    (hst : ∀ dc, snippetHtml "title" fq1 dc = Except.ok none)
    (hsd : ∀ dc, snippetHtml "description" fq2 dc = Except.ok none)
    (hd : d ∈ s.visibleDocs) (hid : d.id = bookmark_id) :
    TantivyIndexManager.generate_highlights fm score parse snippetHtml s bookmark_id query_str
      = Except.ok [] := by
  have hq : evalQuery fm d (TantivyIndexManager.combinedHighlightQuery bookmark_id pq)
      = true := by
    simp [TantivyIndexManager.combinedHighlightQuery, evalQuery, evalClausesCore, evalSub,
      evalLeaf, fieldI64, hid]
  obtain ⟨doc, hdoc⟩ := findHighlightDoc_isSome_of_mem fm score s
    (TantivyIndexManager.combinedHighlightQuery bookmark_id pq) d hd hq
  simp [TantivyIndexManager.generate_highlights, hparse, except_bind_ok, hdoc,
    List.foldlM_cons, hpt, hpd, hst doc, hsd doc]
  rfl

/-- C9 witness: a concrete indexed document and a query matching nothing
produce an empty highlight map. -/
theorem C9_highlight_empty_map_witness :
    TantivyIndexManager.generate_highlights (fun _ _ => false) (fun _ => 0)
        (fun _ _ => Except.ok (SubQuery.leaf LeafQuery.allQuery))
        (fun _ _ _ => Except.ok none)
        ⟨[], [], [⟨1, "T", "u", 1, 0, none, none⟩]⟩ 1 "zzz"
      = Except.ok [] :=
  C9_highlight_empty_map (fun _ _ => false) (fun _ => 0)
    (fun _ _ => Except.ok (SubQuery.leaf LeafQuery.allQuery))
    (fun _ _ _ => Except.ok none)
    ⟨[], [], [⟨1, "T", "u", 1, 0, none, none⟩]⟩ 1 "zzz"
    (SubQuery.leaf LeafQuery.allQuery) (SubQuery.leaf LeafQuery.allQuery)
    (SubQuery.leaf LeafQuery.allQuery) ⟨1, "T", "u", 1, 0, none, none⟩
    rfl rfl rfl (fun _ => rfl) (fun _ => rfl)
    (List.mem_singleton.mpr rfl) rfl
